import Mathlib

/-!
Verification of the grab-redis resilient client library against its
natural-language specification.  The Go source is shallowly embedded:
pure functions become Lean functions, in-place mutation becomes explicit
state passing, external collaborators (the lower-layer goredis pool, the
hystrix registry) are abstracted as oracles or enumerated outcomes.
-/

namespace GrabRedis

/-! ## Error and value model of the lower layer -/

/-- Kinds of Go `error` values a breaker-protected redis call can observe,
enumerated by how the predicates used in `shouldCountAsCBError` behave on
them: `canceled` satisfies `errors.Is(err, context.Canceled)`;
`deadlineExceeded` is `context.DeadlineExceeded` (not `Canceled`, not a
goredis error); `readOnlyTopology` is a goredis `Error` satisfying
`goredis.IsReadOnlyError` (a READONLY reply); `serverReported` is any other
well-formed goredis `Error` (e.g. unknown command); `transport` is anything
else (timeouts, connection errors). -/
inductive GoError
  | canceled
  | deadlineExceeded
  | readOnlyTopology
  | serverReported
  | transport
deriving DecidableEq, Repr

/-- Models `errors.Is(err, context.Canceled)`. -/
def GoError.isCanceled : GoError → Bool
  | .canceled => true
  | _ => false

/-- Models `goredis.IsReadOnlyError(err)`: a redis reply error whose message
begins with READONLY. -/
def GoError.isReadOnlyRedisError : GoError → Bool
  | .readOnlyTopology => true
  | _ => false

/-- Models the Go type assertion `err.(goredis.Error)`: true exactly for
well-formed server-reported redis errors (READONLY replies included). -/
def GoError.isGoredisError : GoError → Bool
  | .readOnlyTopology => true
  | .serverReported => true
  | _ => false

/-- Embeds `shouldCountAsCBError` (limiter file): nil is not counted; a
cancellation is not counted; a READONLY reply is counted; any other goredis
`Error` is not counted; everything else is counted. -/
def shouldCountAsCBError : Option GoError → Bool
  | none => false
  | some err =>
    if err.isCanceled then false
    else if err.isReadOnlyRedisError then true
    else if err.isGoredisError then false
    else true

/-- Embeds the handler installed by `getDefaultCBOptions`: the argument of
`cb.WithUserErrorHandler`, returning whether the error is non-threat
together with the error to track. -/
def defaultUserErrorHandlerCore (err : GoError) : Bool × Option GoError :=
  (!shouldCountAsCBError (some err), some err)

/-- Embeds the wrapping done by `circuitbreaker.WithUserErrorHandler`: a nil
error short-circuits to `(false, nil)` without consulting the handler. -/
def wrappedUserErrHandler (handler : GoError → Bool × Option GoError) :
    Option GoError → Bool × Option GoError
  | none => (false, none)
  | some err => handler err

/-- Embeds `handleError` inside `circuitbreaker.Go`: on a non-nil routine
error the user handler classifies it, and a threat error is returned to the
hystrix runner (whose rolling window then records a failure); a non-threat
or nil error is delivered on the soft channel and nil is returned (the
window records a success). The result is the error seen by hystrix. -/
def runHandleError (userErrHandler : Option GoError → Bool × Option GoError)
    (routineError : Option GoError) : Option GoError :=
  match routineError with
  | some e =>
    let res := userErrHandler (some e)
    if !res.1 then res.2 else none
  | none => none

/-- An observed error feeds the breaker's tracked-error count exactly when
the error handed back to hystrix by `handleError` under the default options
is non-nil. -/
def countedAsCBError (err : Option GoError) : Bool :=
  (runHandleError (wrappedUserErrHandler defaultUserErrorHandlerCore) err).isSome

/-- Breaker tracked-error count accumulated over a sequence of observed
errors of a breaker-protected call. -/
def breakerTrackedCount (errs : List (Option GoError)) : Nat :=
  (errs.filter countedAsCBError).length

/-- Specification-side classification of the claim: deadline expiry,
READONLY topology errors and transport errors are threats; nil,
cancellations and well-formed server-reported errors are not. -/
def isThreatSpec : Option GoError → Bool
  | none => false
  | some .canceled => false
  | some .serverReported => false
  | some .deadlineExceeded => true
  | some .readOnlyTopology => true
  | some .transport => true

/-! ## Reply values and lower-layer command results -/

/-- Redis argument / reply values, restricted to the scalar shapes the
claims exercise (`interface{}` in Go). -/
inductive RValue
  | nil
  | str (s : String)
  | int (n : Int)
deriving DecidableEq, Repr

instance : Inhabited RValue := ⟨RValue.nil⟩

/-- Errors returned by a lower-layer command: the nil-reply sentinel
`goredis.Nil` or any other error carrying its message. -/
inductive RedisError
  | nilReply
  | other (msg : String)
deriving DecidableEq, Repr

/-- Go `err.Error()`; `goredis.Nil.Error()` is the fixed string
"redis: nil". -/
def RedisError.message : RedisError → String
  | .nilReply => "redis: nil"
  | .other m => m

/-- The (value, error) pair held by a completed `goredis.Cmd`, i.e. what
`cmd.Result()` returns. -/
structure CmdResult where
  value : RValue
  err : Option RedisError
deriving DecidableEq, Repr

/-- A Go context, abstracted to what the claims observe: either
`context.Background()` or the caller-supplied context (with its
cancellation status). -/
inductive Ctx
  | background
  | caller (canceled : Bool)
deriving DecidableEq, Repr

/-- The lower-layer wrapped client, abstracted as a response oracle: for a
context and an argument list it yields the completed command result. -/
def Backend := Ctx → List RValue → CmdResult

/-! ## Script object (redisapi) -/

/-- Embeds `redisapi.Script`: key count, source, and the hex SHA-1 of the
source precomputed by `NewScript` (the hash is carried abstractly; none of
the claims depends on the digest function itself). -/
structure Script where
  keyCount : Int
  src : String
  hash : String
deriving DecidableEq, Repr

/-- Embeds `Script.args`: with a negative key count the spec string is
followed directly by the keys-and-args; otherwise the key count is
inserted after the spec string. -/
def Script.args (s : Script) (spec : String) (keysAndArgs : List RValue) : List RValue :=
  if s.keyCount < 0 then RValue.str spec :: keysAndArgs
  else RValue.str spec :: RValue.int s.keyCount :: keysAndArgs

/-- Embeds `Script.GetHashAndArgs`. -/
def Script.getHashAndArgs (s : Script) (keysAndArgs : List RValue) : List RValue :=
  s.args s.hash keysAndArgs

/-- Embeds `Script.GetScriptAndArgs`. -/
def Script.getScriptAndArgs (s : Script) (keysAndArgs : List RValue) : List RValue :=
  s.args s.src keysAndArgs

/-! ## Client layer (client.go) -/

/-- Constant `redisEval` from constants.go. -/
def redisEval : String := "EVAL"

/-- Constant `redisEvalSha` from constants.go. -/
def redisEvalSha : String := "EVALSHA"

/-- Constant `redisErrNoScript` from constants.go. -/
def redisErrNoScript : String := "NOSCRIPT "

/-- Embeds Go `strings.HasPrefix` through the character sequences of the
two strings (the NOSCRIPT marker is ASCII, where the byte-wise test of Go
and the character-wise test agree). -/
def hasPrefixGo (s pre : String) : Bool :=
  pre.data.isPrefixOf s.data

/-- Embeds `clientImpl.getResultFromCommand`: the reply is returned as is;
the nil-reply sentinel error `goredis.Nil` is converted to a nil error,
every other error is passed through unchanged. -/
def getResultFromCommand (cmd : CmdResult) : RValue × Option RedisError :=
  let err := if cmd.err = some RedisError.nilReply then none else cmd.err
  (cmd.value, err)

/-- Embeds `clientImpl.getResultFromCommands`: every command contributes
its converted (value, error) pair in order, and the aggregate error is the
first non-nil converted per-command error. -/
def getResultFromCommands :
    List CmdResult → List (RValue × Option RedisError) × Option RedisError
  | [] => ([], none)
  | cmd :: rest =>
    let r := getResultFromCommand cmd
    let tail := getResultFromCommands rest
    (r :: tail.1,
      match r.2 with
      | some e => some e
      | none => tail.2)

/-- Embeds `clientImpl.do`: execute one command against the wrapped client
with the given context and convert the result. -/
def clientDo (backend : Backend) (ctx : Ctx) (args : List RValue) :
    RValue × Option RedisError :=
  getResultFromCommand (backend ctx args)

/-- Embeds `clientImpl.Do`: `redisapi.NewArgs(cmdName).Add(args...)` is a
plain append, so the issued argument list is the command name followed by
the caller's arguments; the caller's context is threaded through. -/
def clientDoCmd (backend : Backend) (ctx : Ctx) (cmdName : String)
    (args : List RValue) : RValue × Option RedisError :=
  clientDo backend ctx (RValue.str cmdName :: args)

/-- Embeds `clientImpl.Pipeline`: the caller's context is discarded
(`ctx = context.Background()` in the source); one lower-layer command is
appended per input tuple in order, the pipeline is executed, and the
results are collected by `getResultFromCommands`. -/
def clientPipeline (backend : Backend) (_ctx : Ctx)
    (argsList : List (List RValue)) :
    List (RValue × Option RedisError) × Option RedisError :=
  let pipeCtx := Ctx.background
  getResultFromCommands (argsList.map (fun args => backend pipeCtx args))

/-- Embeds `clientImpl.Run`, instrumented with the trace of argument lists
handed to `clientImpl.do`, in order: first EVALSHA with the hash form; when
that yields an error whose message has the NOSCRIPT marker at its start, a
single retry with EVAL and the full source. -/
def clientRun (backend : Backend) (ctx : Ctx) (script : Script)
    (keysAndArgs : List RValue) :
    (RValue × Option RedisError) × List (List RValue) :=
  let allArgs := RValue.str redisEvalSha :: script.getHashAndArgs keysAndArgs
  let res := clientDo backend ctx allArgs
  match res.2 with
  | some e =>
    if hasPrefixGo (RedisError.message e) redisErrNoScript then
      let allArgs2 := RValue.str redisEval :: script.getScriptAndArgs keysAndArgs
      (clientDo backend ctx allArgs2, [allArgs, allArgs2])
    else (res, [allArgs])
  | none => (res, [allArgs])

/-- Embeds `clientImpl.Publish`: the caller's context is discarded
(`wrappedClient.Publish(context.Background(), ...)` in the source); the
wrapped client's Publish is modelled as issuing a PUBLISH command, and its
raw result is returned without nil-reply conversion. -/
def clientPublish (backend : Backend) (_ctx : Ctx) (channelName : String)
    (value : RValue) : RValue × Option RedisError :=
  let res := backend Ctx.background [RValue.str "PUBLISH", RValue.str channelName, value]
  (res.value, res.err)

/-- Embeds the context choice of `clientImpl.Subscribe`: the wrapped
client's Subscribe is invoked with `context.Background()` whatever the
caller supplied. -/
def clientSubscribeCtx (_ctx : Ctx) : Ctx := Ctx.background

/-- Embeds `connectorImpl.Run`: one shadow task per load-test client is
enqueued (each task, when a scheduler worker executes it, runs
`client.Run` against its shadow backend with the scheduler's context), and
`client.Run` is executed on the primary with the caller's context. Returns
the primary result with its trace, and the trace of each shadow task. -/
def connectorRun (primary : Backend) (shadows : List Backend)
    (schedulerCtx ctx : Ctx) (script : Script) (keysAndArgs : List RValue) :
    ((RValue × Option RedisError) × List (List RValue)) × List (List (List RValue)) :=
  (clientRun primary ctx script keysAndArgs,
   shadows.map (fun b => (clientRun b schedulerCtx script keysAndArgs).2))

/-- Specification-side description of the aggregate pipeline error: the
first non-nil per-command error of the collected result slots. -/
def specFirstSlotError : List (RValue × Option RedisError) → Option RedisError
  | [] => none
  | r :: rest =>
    match r.2 with
    | some e => some e
    | none => specFirstSlotError rest

/-! ## Command classifier (claim C8) -/

/-- Record of the command catalog relevant here: the read-only flag of a
`goredis.CommandInfo`. -/
structure CommandInfo where
  readOnly : Bool
deriving DecidableEq, Repr

/-- Association-list lookup modelling Go map indexing
(`cmdCache[name]`, nil when absent). -/
def lookupInfo : List (String × CommandInfo) → String → Option CommandInfo
  | [], _ => none
  | (k, v) :: rest, name => if k = name then some v else lookupInfo rest name

/-- Embeds `clientImpl.ifCommandReadonly`: an empty cache or an unknown
name yields `(false, "no command cache")`; a hit yields the record's
read-only flag and no error. -/
def ifCommandReadonly (cmdCache : List (String × CommandInfo)) (name : String) :
    Bool × Option String :=
  if cmdCache.length = 0 ∨ lookupInfo cmdCache name = none then
    (false, some "no command cache")
  else
    match lookupInfo cmdCache name with
    | some info => (info.readOnly, none)
    | none => (false, some "no command cache")

/-- Modelled from the spec: the catalog fetch performed at client
construction (`c.cmdCache, _ = c.wrappedClient.Command(ctx).Result()`) is
implemented in the external goredis library, which is not part of this
repository; per the spec it caches the backend's catalog keyed by the
uppercase command name. -/
def fetchedCmdCache (catalog : List (String × CommandInfo)) :
    List (String × CommandInfo) :=
  catalog.map (fun p => (p.1.toUpper, p.2))

/-! ## Latency ring and shadow scheduler -/

/-- Embeds the `latencies` ring (latencies.go): fixed slots of nanosecond
samples, a monotone write index starting at -1, and a saturating added
counter. The lock-free Go code is modelled with its single-threaded
(sequentially consistent) semantics. -/
structure Latencies where
  values : List Int
  index : Int
  added : Int
deriving DecidableEq, Repr

/-- Embeds `newLatencies`. -/
def newLatencies (l : Nat) : Latencies :=
  { values := List.replicate l 0, index := -1, added := 0 }

/-- Embeds `latencies.Add`: increment the write index, store at
`index mod capacity` (Go's truncated `%`), increment the added counter. -/
def Latencies.add (l : Latencies) (value : Int) : Latencies :=
  let index := l.index + 1
  let slot := Int.tmod index (l.values.length : Int)
  { values := l.values.set slot.toNat value
    index := index
    added := l.added + 1 }

/-- Embeds `latencies.Average`: the added counter clamped to the capacity
gives the number of occupied slots; the result is their arithmetic mean
(0 when none). The Go float64 arithmetic is modelled exactly over ℚ. -/
def Latencies.average (l : Latencies) : ℚ :=
  let added := l.added
  let length : Int := if added < (l.values.length : Int) then added else (l.values.length : Int)
  if length ≤ 0 then 0
  else (((l.values.take length.toNat).foldl (· + ·) 0 : Int) : ℚ) / (length : ℚ)

/-- The scheduler fields that the monitor loop in `scheduler.start` reads
and writes on one tick: the sampled queue depth `len(s.fnChan)`, the
worker bound, the live worker counter and the latency ring. -/
structure SchedState where
  backlog : Nat
  maxWorker : Int
  numWorker : Int
  latencies : Latencies
deriving DecidableEq, Repr

/-- Embeds the spawn loop of `scheduler.start`:
`for i := 0; i < need && numWorker < maxWorker; i++ { go spawnWorker }`.
Each spawned worker's first action is to increment the live counter
(`s.numWorker.Inc()`), modelled synchronously here. Returns the counter
after the loop. -/
def spawnLoop (maxWorker need i numWorker : Int) : Int :=
  if i < need ∧ numWorker < maxWorker then
    spawnLoop maxWorker need (i + 1) (numWorker + 1)
  else numWorker
termination_by (need - i).toNat
decreasing_by omega

/-- Embeds one 100 ms tick of the monitor in `scheduler.start`: a zero
backlog is skipped; otherwise `need` is 1 unless the ring average is
positive, in which case it is the ceiling of backlog times the average
latency in seconds, and up to `need` workers are spawned subject to the
worker bound. -/
def monitorTick (s : SchedState) : SchedState :=
  let backlog := s.backlog
  if backlog = 0 then s
  else
    let avgLatency := s.latencies.average
    let need : Int :=
      if 0 < avgLatency then Int.ceil ((backlog : ℚ) * (avgLatency / 1000000000)) else 1
    { s with numWorker := spawnLoop s.maxWorker need 0 s.numWorker }

/-! ## Configuration (config file) -/

/-- Constant `ModeCluster` (a `ClientMode` is a Go string). -/
def ModeCluster : String := "cluster"

/-- Constant `ModeMasterSlaveGroup`. -/
def ModeMasterSlaveGroup : String := "masterSlaveGroup"

/-- Constant `ModeSingleHost`. -/
def ModeSingleHost : String := "singleHost"

/-- Embeds `ClientMode.IsValid`. -/
def clientModeIsValid (m : String) : Bool :=
  m = ModeCluster ∨ m = ModeMasterSlaveGroup ∨ m = ModeSingleHost

/-- Constant `ModeReadFromMaster` (a `ReadMode` is a Go string). -/
def ModeReadFromMaster : String := "readFromMaster"

/-- Constant `ModeReadFromSlaves`. -/
def ModeReadFromSlaves : String := "readFromSlaves"

/-- Constant `ModeReadRandomly`. -/
def ModeReadRandomly : String := "readRandomly"

/-- Constant `ModeReadByLatency`. -/
def ModeReadByLatency : String := "readByLatency"

/-- Embeds `ReadMode.IsValid`. -/
def readModeIsValid (m : String) : Bool :=
  m = ModeReadFromMaster ∨ m = ModeReadFromSlaves ∨ m = ModeReadRandomly ∨ m = ModeReadByLatency

/-- Constant `ucmEmptyString` from constants.go. -/
def ucmEmptyString : String := "<nil>"

/-- Constant `defaultHostAndPort` from constants.go. -/
def defaultHostAndPort : String := "localhost:6379"

/-- Constant `defaultReadMode` from constants.go. -/
def defaultReadMode : String := ModeReadFromSlaves

/-- Constant `defaultDialTimeoutInMs` from constants.go. -/
def defaultDialTimeoutInMs : Int := 5000

/-- Constant `defaultCBTimeoutInMS` from constants.go. -/
def defaultCBTimeoutInMS : Int := 31000

/-- Constant `defaultCBMaxConcurrent` from constants.go. -/
def defaultCBMaxConcurrent : Int := 5000

/-- Constant `defaultCBErrPercent` from constants.go. -/
def defaultCBErrPercent : Int := 50

/-- Constant `defaultMaxChanSize` from constants.go. -/
def defaultMaxChanSize : Int := 10000

/-- Constant `defaultMaxWorker` from constants.go. -/
def defaultMaxWorker : Int := 10

/-- Constant `defaultWorkerIdleTimeout` from constants.go. -/
def defaultWorkerIdleTimeout : Int := 1000

/-- Embeds `parseDurationInMs`: a millisecond count as a `time.Duration`
(nanoseconds). -/
def parseDurationInMs (durationInMs : Int) : Int :=
  durationInMs * 1000000

/-- Embeds the `Hystrix` settings record (constants file). -/
structure Hystrix where
  timeoutInMs : Int
  maxConcurrentRequests : Int
  requestVolumeThreshold : Int
  errorPercentThreshold : Int
  sleepWindowInMs : Int
  queueSizeRejectionThreshold : Int
deriving DecidableEq, Repr

instance : Inhabited Hystrix := ⟨⟨0, 0, 0, 0, 0, 0⟩⟩

/-- Embeds `Hystrix.Equals`: all six fields equal. -/
def Hystrix.equals (h other : Hystrix) : Bool :=
  h.timeoutInMs = other.timeoutInMs
    ∧ h.maxConcurrentRequests = other.maxConcurrentRequests
    ∧ h.requestVolumeThreshold = other.requestVolumeThreshold
    ∧ h.errorPercentThreshold = other.errorPercentThreshold
    ∧ h.sleepWindowInMs = other.sleepWindowInMs
    ∧ h.queueSizeRejectionThreshold = other.queueSizeRejectionThreshold

/-- Embeds `ClientConfig` (config file); modes are the Go strings. -/
structure ClientConfig where
  clientMode : String
  addrs : List String
  username : String
  password : String
  db : Int
  maxRetries : Int
  minRetryBackoffInMs : Int
  maxRetryBackoffInMs : Int
  dialTimeoutInMs : Int
  readTimeoutInMs : Int
  writeTimeoutInMs : Int
  poolSize : Int
  minIdleConns : Int
  maxIdleConns : Int
  maxConnAgeInMs : Int
  poolTimeoutInMs : Int
  idleTimeoutInMs : Int
  idleCheckFrequencyInMs : Int
  tlsEnabled : Bool
  hystrixEnabled : Bool
  hystrix : Hystrix
  maxRedirects : Int
  readMode : String
  ignoreReadOnly : Bool
deriving DecidableEq, Repr

instance : Inhabited ClientConfig :=
  ⟨{ clientMode := "", addrs := [], username := "", password := "", db := 0,
     maxRetries := 0, minRetryBackoffInMs := 0, maxRetryBackoffInMs := 0,
     dialTimeoutInMs := 0, readTimeoutInMs := 0, writeTimeoutInMs := 0,
     poolSize := 0, minIdleConns := 0, maxIdleConns := 0, maxConnAgeInMs := 0,
     poolTimeoutInMs := 0, idleTimeoutInMs := 0, idleCheckFrequencyInMs := 0,
     tlsEnabled := false, hystrixEnabled := false, hystrix := default,
     maxRedirects := 0, readMode := "", ignoreReadOnly := false }⟩

/-- Insertion step of `sortStrings`. -/
def insertSorted (x : String) : List String → List String
  | [] => [x]
  | y :: ys => if x ≤ y then x :: y :: ys else y :: insertSorted x ys

/-- Sorting of a Go string slice (`sort.Strings` sorts ascending; the Go
in-place sort is modelled by working with the sorted copy, computed by
insertion sort, which produces the same ascending reordering). -/
def sortStrings : List String → List String
  | [] => []
  | x :: xs => insertSorted x (sortStrings xs)

/-- Embeds `ClientConfig.init`: fill the default address, normalise the
empty and literal-nil read mode, username and password, and fill the
dial-timeout and hystrix defaults for zero values. -/
def ClientConfig.init (c : ClientConfig) : ClientConfig :=
  let c := if c.addrs = [] then { c with addrs := [defaultHostAndPort] } else c
  let c := if c.readMode = "" ∨ c.readMode = ucmEmptyString then
             { c with readMode := defaultReadMode } else c
  let c := if c.username = ucmEmptyString then { c with username := "" } else c
  let c := if c.password = ucmEmptyString then { c with password := "" } else c
  let c := if c.dialTimeoutInMs = 0 then
             { c with dialTimeoutInMs := defaultDialTimeoutInMs } else c
  let c := if c.hystrix.timeoutInMs = 0 then
             { c with hystrix := { c.hystrix with timeoutInMs := defaultCBTimeoutInMS } } else c
  let c := if c.hystrix.maxConcurrentRequests = 0 then
             { c with hystrix := { c.hystrix with maxConcurrentRequests := defaultCBMaxConcurrent } } else c
  let c := if c.hystrix.errorPercentThreshold = 0 then
             { c with hystrix := { c.hystrix with errorPercentThreshold := defaultCBErrPercent } } else c
  c

/-- Embeds `ClientConfig.name`: the canonical identity of a client; the
sole address for single-host mode, otherwise the sorted addresses joined
by commas. -/
def ClientConfig.name (c : ClientConfig) : String :=
  if c.addrs = [] then defaultHostAndPort
  else if c.clientMode = ModeSingleHost then c.addrs.headD defaultHostAndPort
  else String.intercalate "," (sortStrings c.addrs)

/-- Embeds `ClientConfig.validate`; the result is the error, if any (note
that the source formats the client mode into the read-mode message too). -/
def ClientConfig.validate (c : ClientConfig) : Option String :=
  if c.addrs = [] then some "no addrs found in config"
  else if ¬clientModeIsValid c.clientMode then
    some ("client mode " ++ c.clientMode ++ " is not valid")
  else if ¬readModeIsValid c.readMode then
    some ("read mode " ++ c.clientMode ++ " is not valid")
  else none

/-- Embeds `isAddrsEquals` (config file): length equality, then
element-wise equality after sorting both slices. -/
def isAddrsEquals (addrs1 addrs2 : List String) : Bool :=
  if addrs1.length ≠ addrs2.length then false
  else sortStrings addrs1 = sortStrings addrs2

/-- Embeds `ClientConfig.validateReload`: the incoming config must
validate, and the client mode, DB and address set are immutable. -/
def ClientConfig.validateReload (c config : ClientConfig) : Option String :=
  match config.validate with
  | some e => some e
  | none =>
    if c.clientMode ≠ config.clientMode then
      some "client mode change is not allowed in reloading"
    else if c.db ≠ config.db then
      some "DB change is not allowed in reloading"
    else if ¬isAddrsEquals c.addrs config.addrs then
      some "addrs change is not allowed in reloading"
    else none

/-! ## In-place client reload (client_wrapper and cluster_wrapper) -/

/-- Shared scalar-parameter application of both wrapper reloads: each field
of the stored config is overwritten with the incoming value (the source
guards each assignment with an inequality test and also invokes the pool's
in-place setter, which acts on the external pool and is outside the
claim-relevant state; the resulting stored config is the same). -/
def applyScalarReload (c config : ClientConfig) : ClientConfig :=
  { c with
    username := config.username
    password := config.password
    maxRetries := config.maxRetries
    minRetryBackoffInMs := config.minRetryBackoffInMs
    maxRetryBackoffInMs := config.maxRetryBackoffInMs
    dialTimeoutInMs := config.dialTimeoutInMs
    readTimeoutInMs := config.readTimeoutInMs
    writeTimeoutInMs := config.writeTimeoutInMs
    poolSize := config.poolSize
    minIdleConns := config.minIdleConns
    maxIdleConns := config.maxIdleConns
    maxConnAgeInMs := config.maxConnAgeInMs
    poolTimeoutInMs := config.poolTimeoutInMs
    idleTimeoutInMs := config.idleTimeoutInMs
    idleCheckFrequencyInMs := config.idleCheckFrequencyInMs }

/-- Shared hystrix-flag handling of both wrapper reloads: when hystrix is
enabled and either the settings changed or it was previously disabled, the
stored settings are replaced (breakers are reconfigured and limiters
re-installed in the external registry); the enabled flag is then stored.
Disabling removes the limiters externally and only stores the flag. -/
def applyHystrixReload (c config : ClientConfig) : ClientConfig :=
  let c :=
    if config.hystrixEnabled then
      if ¬(c.hystrix.equals config.hystrix) ∨ ¬c.hystrixEnabled then
        { c with hystrix := config.hystrix }
      else c
    else c
  { c with hystrixEnabled := config.hystrixEnabled }

/-- Embeds `clientWrapperImpl.reload` (single-host wrapper): initialise the
incoming config, validate it against the stored one, then apply scalar,
hystrix and ignore-read-only updates. A failure occurs only in validation,
before any mutation. -/
def clientWrapperReload (c rawConfig : ClientConfig) : Except String ClientConfig :=
  let config := rawConfig.init
  match c.validateReload config with
  | some e => Except.error e
  | none =>
    let c := applyScalarReload c config
    let c := applyHystrixReload c config
    Except.ok { c with ignoreReadOnly := config.ignoreReadOnly }

/-- Embeds `clusterWrapperImpl.reload` (cluster and master-slave wrapper):
as the single-host wrapper, and additionally the max-redirects value and
the read-routing mode (whose three derived routing flags act on the
external pool) are stored. -/
def clusterWrapperReload (c rawConfig : ClientConfig) : Except String ClientConfig :=
  let config := rawConfig.init
  match c.validateReload config with
  | some e => Except.error e
  | none =>
    let c := applyScalarReload c config
    let c := applyHystrixReload c config
    let c := { c with maxRedirects := config.maxRedirects }
    let c := { c with ignoreReadOnly := config.ignoreReadOnly }
    Except.ok { c with readMode := config.readMode }

/-- Embeds `clientImpl.reload`: delegate to the wrapper chosen at client
construction — the single-host wrapper for `ModeSingleHost`, the cluster
wrapper for the two cluster modes (the stored mode equals the construction
mode, since reload validation forbids mode changes). -/
def clientReload (c config : ClientConfig) : Except String ClientConfig :=
  if c.clientMode = ModeSingleHost then clientWrapperReload c config
  else clusterWrapperReload c config

/-- Embeds `newClient` on the reload path: the client stores the incoming
config. For a config that already passed `initAndValidate` and a live
context, the construction error paths of the source (invalid client mode,
cancelled context) cannot fire; the catalog fetch error is ignored by the
source. -/
def newClientConfig (config : ClientConfig) : ClientConfig :=
  config

/-! ## Connector state and reload (connector.go) -/

/-- Embeds `ConnectorConfig`. -/
structure ConnectorConfig where
  main : ClientConfig
  loadTests : List ClientConfig
  hotReload : Bool
  processAllLoadTestPackets : Bool
  schedulerWorkerNumber : Int
  schedulerChannelSize : Int
  schedulerWorkerIdleTimeoutInMs : Int
deriving DecidableEq, Repr

/-- The connector fields read and written by `connectorImpl.reload`. A
client is represented by its mutable stored config; the position in
`loadTestClients` is the client's identity (the Go slice holds pointers,
and in-place mutation of a matched client is modelled by updating its
slot). -/
structure ConnectorState where
  clientCfg : ClientConfig
  loadTestClients : List ClientConfig
  processAllLoadTestPackets : Bool
  schedMaxChanSize : Int
  schedMaxWorker : Int
  schedWorkerIdleTimeoutNs : Int
deriving DecidableEq, Repr

/-- Lookup in the shadow-reconciliation map (a Go
`map[string][]*clientImpl`, holding client identities); a missing key is
the empty slice. -/
def mapLookup (m : List (String × List Nat)) (k : String) : List Nat :=
  match m with
  | [] => []
  | (k', v) :: rest => if k' = k then v else mapLookup rest k

/-- Store a value in the shadow-reconciliation map. -/
def mapSet (m : List (String × List Nat)) (k : String) (v : List Nat) :
    List (String × List Nat) :=
  match m with
  | [] => [(k, v)]
  | (k', v') :: rest => if k' = k then (k', v) :: rest else (k', v') :: mapSet rest k v

/-- Embeds the map-building loop of `connectorImpl.reload`:
`loadTestMap[client.config.name()] = append(..., client)` over the current
shadow clients, in order, with the position as identity. -/
def buildLoadTestMap : List ClientConfig → Nat → List (String × List Nat)
  | [], _ => []
  | c :: rest, i =>
    let m := buildLoadTestMap rest (i + 1)
    mapSet m c.name (i :: mapLookup m c.name)

/-- Embeds one iteration of the shadow loop in `connectorImpl.reload`: look
up the new config's canonical name; when a current instance matches, pop
the last one, reject it if its address set equals the primary's, otherwise
reload it in place; when none matches, construct a new client with no
address check. Returns the produced client together with the updated heap
and map, or the error. -/
def processLoadTest (primaryAddrs : List String) (heap : List ClientConfig)
    (m : List (String × List Nat)) (cfg : ClientConfig) :
    Except String (ClientConfig × List ClientConfig × List (String × List Nat)) :=
  match mapLookup m cfg.name with
  | [] => Except.ok (newClientConfig cfg, heap, m)
  | c0 :: cs =>
    let clients := c0 :: cs
    let idx := clients.getLast (by simp)
    let m' := mapSet m cfg.name clients.dropLast
    if isAddrsEquals primaryAddrs cfg.addrs then
      Except.error "can't share the same address with the main client"
    else
      match clientReload (heap.getD idx default) cfg with
      | Except.error e => Except.error e
      | Except.ok updated => Except.ok (updated, heap.set idx updated, m')

/-- Embeds the shadow-reconciliation loop of `connectorImpl.reload` over
the new shadow configs, accumulating the new client list in order; the
returned heap reflects every in-place mutation performed before an error
aborted the loop. -/
def reloadLoadTests (primaryAddrs : List String) :
    List ClientConfig → List (String × List Nat) → List ClientConfig →
    List ClientConfig → List ClientConfig × Except String (List ClientConfig)
  | heap, _, [], acc => (heap, Except.ok acc.reverse)
  | heap, m, cfg :: rest, acc =>
    match processLoadTest primaryAddrs heap m cfg with
    | Except.error e => (heap, Except.error e)
    | Except.ok (client, heap', m') =>
      reloadLoadTests primaryAddrs heap' m' rest (client :: acc)

/-- Embeds `connectorImpl.reload`: a non-hot-reload config is ignored; the
process-all-load-test-packets flag is stored before any validation; a
scheduler-parameter change is rejected; the primary is reloaded in place;
the shadow set is reconciled by canonical-name matching; leftover shadows
are shut down (external) and the new list is stored. The returned state
reflects every mutation performed before an error, and the second
component is the error handed to the configuration provider's callback. -/
def connectorReload (c : ConnectorState) (config : ConnectorConfig) :
    ConnectorState × Option String :=
  if ¬config.hotReload then (c, none)
  else
    let c := { c with processAllLoadTestPackets := config.processAllLoadTestPackets }
    if c.schedMaxWorker ≠ config.schedulerWorkerNumber
        ∨ c.schedMaxChanSize ≠ config.schedulerChannelSize
        ∨ c.schedWorkerIdleTimeoutNs ≠ parseDurationInMs config.schedulerWorkerIdleTimeoutInMs then
      (c, some "dual write worker number/channel size change is not allowed in reloading")
    else
      match clientReload c.clientCfg config.main with
      | Except.error e => (c, some e)
      | Except.ok newPrimary =>
        let c := { c with clientCfg := newPrimary }
        let m := buildLoadTestMap c.loadTestClients 0
        match reloadLoadTests c.clientCfg.addrs c.loadTestClients m config.loadTests [] with
        | (heap, Except.error e) => ({ c with loadTestClients := heap }, some e)
        | (_, Except.ok newClients) => ({ c with loadTestClients := newClients }, none)

/-- Embeds `ConnectorConfig.initAndValidate`: initialise and validate the
primary config, initialise then validate every shadow config, and fill the
scheduler defaults for zero values. -/
def ConnectorConfig.initAndValidate (c : ConnectorConfig) :
    ConnectorConfig × Option String :=
  let c := { c with main := c.main.init }
  match c.main.validate with
  | some e => (c, some e)
  | none =>
    let c := { c with loadTests := c.loadTests.map ClientConfig.init }
    match c.loadTests.findSome? ClientConfig.validate with
    | some e => (c, some e)
    | none =>
      let c := if c.schedulerWorkerNumber = 0 then
                 { c with schedulerWorkerNumber := defaultMaxWorker } else c
      let c := if c.schedulerChannelSize = 0 then
                 { c with schedulerChannelSize := defaultMaxChanSize } else c
      let c := if c.schedulerWorkerIdleTimeoutInMs = 0 then
                 { c with schedulerWorkerIdleTimeoutInMs := defaultWorkerIdleTimeout } else c
      (c, none)

/-- Embeds the configuration provider's change callback registered in
`NewDynamicConnector`: unmarshal (external), initialise and validate the
incoming config, then reload; the first error is returned to the
provider. -/
def onChangeCallback (c : ConnectorState) (config : ConnectorConfig) :
    ConnectorState × Option String :=
  match config.initAndValidate with
  | (_, some e) => (c, some e)
  | (cfg, none) => connectorReload c cfg

/-! ## Concrete fixtures used by witnesses and counterexamples -/

/-- Fixture: a single-host primary config, already in initialised form. -/
def basePrimaryCfg : ClientConfig :=
  { clientMode := ModeSingleHost, addrs := ["127.0.0.1:6379"], username := "",
    password := "", db := 0, maxRetries := 0, minRetryBackoffInMs := 0,
    maxRetryBackoffInMs := 0, dialTimeoutInMs := 5000, readTimeoutInMs := 0,
    writeTimeoutInMs := 0, poolSize := 1, minIdleConns := 0, maxIdleConns := 0,
    maxConnAgeInMs := 0, poolTimeoutInMs := 0, idleTimeoutInMs := 0,
    idleCheckFrequencyInMs := 0, tlsEnabled := false, hystrixEnabled := false,
    hystrix := ⟨31000, 5000, 0, 50, 0, 0⟩, maxRedirects := 0,
    readMode := ModeReadFromSlaves, ignoreReadOnly := false }

/-- Fixture: a shadow config on a distinct address, initialised form. -/
def baseShadowCfg : ClientConfig :=
  { basePrimaryCfg with addrs := ["127.0.0.1:6380"] }

/-- Fixture: connector state before the reload of the C2 scenario — one
shadow on a distinct address, strict-shadow flag off. -/
def c2StateEx : ConnectorState :=
  { clientCfg := basePrimaryCfg, loadTestClients := [baseShadowCfg],
    processAllLoadTestPackets := false, schedMaxChanSize := 10000,
    schedMaxWorker := 10, schedWorkerIdleTimeoutNs := parseDurationInMs 1000 }

/-- Fixture: incoming reload config of the C2 scenario — hot reload on,
strict-shadow flag turned on, primary pool grown to 2, the matching shadow
asking for a forbidden DB change (so the reload fails in the shadow
phase). -/
def c2ConfigEx : ConnectorConfig :=
  { main := { basePrimaryCfg with poolSize := 2 },
    loadTests := [{ baseShadowCfg with db := 1 }],
    hotReload := true, processAllLoadTestPackets := true,
    schedulerWorkerNumber := 10, schedulerChannelSize := 10000,
    schedulerWorkerIdleTimeoutInMs := 1000 }

/-- Fixture: connector state before the reload of the C3 scenario — no
current shadows. -/
def c3StateEx : ConnectorState :=
  { clientCfg := basePrimaryCfg, loadTestClients := [],
    processAllLoadTestPackets := false, schedMaxChanSize := 10000,
    schedMaxWorker := 10, schedWorkerIdleTimeoutNs := parseDurationInMs 1000 }

/-- Fixture: incoming reload config of the C3 scenario — one brand-new
shadow whose address set equals the primary's. -/
def c3ConfigEx : ConnectorConfig :=
  { main := basePrimaryCfg,
    loadTests := [{ basePrimaryCfg with poolSize := 3 }],
    hotReload := true, processAllLoadTestPackets := false,
    schedulerWorkerNumber := 10, schedulerChannelSize := 10000,
    schedulerWorkerIdleTimeoutInMs := 1000 }

/-- Fixture: a script object (hash carried abstractly). -/
def sampleScript : Script :=
  { keyCount := 0, src := "return ARGV[1]",
    hash := "98e46c8dca5e7dd35087dead90fd6f78f90e3dbc" }

/-- Fixture: a backend that answers every command with a NOSCRIPT error,
as a server does for an `EVALSHA` of an unknown script. -/
def noScriptBackend : Backend :=
  fun _ _ => { value := RValue.nil, err := some (RedisError.other "NOSCRIPT No matching script. Please use EVAL.") }

/-- Fixture: a backend that answers every command with "OK". -/
def okBackend : Backend :=
  fun _ _ => { value := RValue.str "OK", err := none }

/-- Fixture: a backend that reports a cancellation error exactly when it is
invoked with the cancelled caller context, and succeeds otherwise. -/
def ctxSensitiveBackend : Backend :=
  fun ctx _ =>
    if ctx = Ctx.caller true then
      { value := RValue.nil, err := some (RedisError.other "context canceled") }
    else { value := RValue.str "OK", err := none }

/-- Fixture: a scheduler state with a non-empty backlog and a latency ring
whose average is 2 seconds. -/
def schedStateEx : SchedState :=
  { backlog := 3, maxWorker := 10, numWorker := 1,
    latencies := { values := [2000000000], index := 0, added := 1 } }

/-! ## Helper lemmas -/

/-- Collecting pipeline results is the per-command conversion in order,
with the first non-nil converted error as aggregate. -/
theorem getResultFromCommands_eq (cmds : List CmdResult) :
    getResultFromCommands cmds
      = (cmds.map getResultFromCommand,
         specFirstSlotError (cmds.map getResultFromCommand)) := by
  induction cmds with
  | nil => rfl
  | cons c rest ih =>
    simp only [getResultFromCommands, ih, List.map, specFirstSlotError]

/-- Closed form of the spawn loop: it runs while both bounds permit, so the
final counter is the initial one plus the clamped remaining need. -/
theorem spawnLoop_eq (maxWorker need i numWorker : Int) :
    spawnLoop maxWorker need i numWorker
      = numWorker + max 0 (min (need - i) (maxWorker - numWorker)) := by
  rw [spawnLoop]
  split
  · rw [spawnLoop_eq maxWorker need (i + 1) (numWorker + 1)]
    omega
  · omega
termination_by (need - i).toNat
decreasing_by omega

/-- One shadow step never changes the number of current shadow clients. -/
theorem processLoadTest_heap_length (primaryAddrs : List String)
    (heap : List ClientConfig) (m : List (String × List Nat))
    (cfg client : ClientConfig) (heap' : List ClientConfig)
    (m' : List (String × List Nat))
    (h : processLoadTest primaryAddrs heap m cfg = Except.ok (client, heap', m')) :
    heap'.length = heap.length := by
  unfold processLoadTest at h
  cases hm : mapLookup m cfg.name with
  | nil =>
    rw [hm] at h
    cases h
    rfl
  | cons c0 cs =>
    rw [hm] at h
    by_cases ha : isAddrsEquals primaryAddrs cfg.addrs
    · simp [ha] at h
    · simp only [ha, if_neg, Bool.false_eq_true, ite_false] at h
      cases hr : clientReload (heap.getD ((c0 :: cs).getLast (by simp)) default) cfg with
      | error e => rw [hr] at h; cases h
      | ok updated =>
        rw [hr] at h
        cases h
        exact List.length_set ..

/-- The shadow loop never changes the number of current shadow clients in
the heap it returns, whether it succeeds or aborts. -/
theorem reloadLoadTests_heap_length (primaryAddrs : List String)
    (cfgs : List ClientConfig) :
    ∀ (heap : List ClientConfig) (m : List (String × List Nat))
      (acc : List ClientConfig),
      (reloadLoadTests primaryAddrs heap m cfgs acc).1.length = heap.length := by
  induction cfgs with
  | nil => intro heap m acc; rfl
  | cons cfg rest ih =>
    intro heap m acc
    simp only [reloadLoadTests]
    cases h : processLoadTest primaryAddrs heap m cfg with
    | error e => rfl
    | ok t =>
      obtain ⟨client, heap', m'⟩ := t
      rw [ih heap' m' (client :: acc)]
      exact processLoadTest_heap_length primaryAddrs heap m cfg client heap' m' h

/-! ## Claim theorems -/

/-- Claim C1: for every error observed by a breaker-protected call, the
default non-threat predicate counts the error toward the breaker's
tracked-error count exactly when it is a threat: a nil error, a
context-cancellation error, and a well-formed server-reported error are
never counted, while a deadline-expiry error, a protocol-level read-only
error, and any other error (timeouts, connection errors) are always
counted; over any sequence of observed errors the tracked count is the
number of threats. -/
theorem c1_default_predicate_counts_exactly_threats :
    (∀ e : Option GoError, countedAsCBError e = isThreatSpec e)
    ∧ ∀ errs : List (Option GoError),
        breakerTrackedCount errs = (errs.filter isThreatSpec).length := by
  have hpt : ∀ e : Option GoError, countedAsCBError e = isThreatSpec e := by
    intro e
    rcases e with _ | e
    · rfl
    · cases e <;> rfl
  refine ⟨hpt, ?_⟩
  intro errs
  unfold breakerTrackedCount
  rw [funext hpt]

/-- Claim C9: for every script with key count k and every argument list,
GetHashAndArgs returns [hash, k, ...arguments] when k ≥ 0 and
[hash, ...arguments] when k < 0, and GetScriptAndArgs returns the
identical list with the script source substituted for the hash. -/
theorem c9_script_args_shape :
    ∀ (s : Script) (keysAndArgs : List RValue),
      (s.getHashAndArgs keysAndArgs
        = if 0 ≤ s.keyCount
          then RValue.str s.hash :: RValue.int s.keyCount :: keysAndArgs
          else RValue.str s.hash :: keysAndArgs)
      ∧ (s.getScriptAndArgs keysAndArgs
        = if 0 ≤ s.keyCount
          then RValue.str s.src :: RValue.int s.keyCount :: keysAndArgs
          else RValue.str s.src :: keysAndArgs) := by
  intro s ks
  unfold Script.getHashAndArgs Script.getScriptAndArgs Script.args
  by_cases h : s.keyCount < 0
  · constructor <;> simp [h, not_le.mpr h]
  · constructor <;> simp [h, not_lt.mp h]

/-- Claim C5: for every pipeline call with N input tuples, the returned
sequence has exactly N (value, error) pairs, the i-th pair is the result
of the i-th input tuple, each per-command error is retained in its own
slot, and the aggregate error is the first non-nil per-command error (nil
if all commands succeeded). -/
theorem c5_pipeline_results :
    ∀ (backend : Backend) (ctx : Ctx) (argsList : List (List RValue)),
      (clientPipeline backend ctx argsList).1.length = argsList.length
      ∧ (clientPipeline backend ctx argsList).1
          = argsList.map (fun args => getResultFromCommand (backend Ctx.background args))
      ∧ (clientPipeline backend ctx argsList).2
          = specFirstSlotError (clientPipeline backend ctx argsList).1 := by
  intro backend ctx argsList
  unfold clientPipeline
  rw [getResultFromCommands_eq]
  refine ⟨by simp, by simp [List.map_map, Function.comp], by simp⟩

/-- Claim C10: for every command whose backend reply is the nil-reply
sentinel error (`goredis.Nil`, whose reply value is nil), Do and each
Pipeline slot return a nil value together with a nil error, while every
other backend error is returned to the caller unchanged. -/
theorem c10_nil_reply_conversion :
    ∀ cmd : CmdResult,
      (cmd.err = some RedisError.nilReply → cmd.value = RValue.nil →
        getResultFromCommand cmd = (RValue.nil, none))
      ∧ (∀ m, cmd.err = some (RedisError.other m) →
        getResultFromCommand cmd = (cmd.value, some (RedisError.other m)))
      ∧ (cmd.err = none → getResultFromCommand cmd = (cmd.value, none))
      ∧ (∀ (backend : Backend) (ctx : Ctx) (cmdName : String) (args : List RValue),
          clientDoCmd backend ctx cmdName args
            = getResultFromCommand (backend ctx (RValue.str cmdName :: args)))
      ∧ (∀ (backend : Backend) (ctx : Ctx) (argsList : List (List RValue)),
          (clientPipeline backend ctx argsList).1
            = argsList.map (fun args => getResultFromCommand (backend Ctx.background args))) := by
  intro cmd
  refine ⟨?_, ?_, ?_, ?_, ?_⟩
  · intro he hv
    simp [getResultFromCommand, he, hv]
  · intro m he
    simp [getResultFromCommand, he]
  · intro he
    simp [getResultFromCommand, he]
  · intro backend ctx cmdName args
    rfl
  · intro backend ctx argsList
    unfold clientPipeline
    rw [getResultFromCommands_eq]
    simp [List.map_map, Function.comp]

/-- Witness for C10 at concrete commands: the nil-reply sentinel becomes a
nil value with nil error, an ordinary error passes through unchanged. -/
theorem c10_nil_reply_conversion_witness :
    getResultFromCommand ⟨RValue.nil, some RedisError.nilReply⟩ = (RValue.nil, none)
    ∧ getResultFromCommand ⟨RValue.str "v", some (RedisError.other "ERR boom")⟩
        = (RValue.str "v", some (RedisError.other "ERR boom")) :=
  ⟨(c10_nil_reply_conversion ⟨RValue.nil, some RedisError.nilReply⟩).1 rfl rfl,
   (c10_nil_reply_conversion ⟨RValue.str "v", some (RedisError.other "ERR boom")⟩).2.1
     "ERR boom" rfl⟩

/-- Claim C8: the catalog fetched at construction is cached keyed by
uppercase command name (the fetch itself is external and modelled from the
spec), and the read-only lookup returns (flag, nil) on a hit and
(false, "no command cache") on a miss, a miss being an empty cache or an
unknown name. -/
theorem c8_command_cache_lookup :
    ∀ (catalog cache : List (String × CommandInfo)) (name : String),
      (∀ k ∈ (fetchedCmdCache catalog).map Prod.fst, ∃ n : String, k = n.toUpper)
      ∧ (∀ info, lookupInfo cache name = some info →
          ifCommandReadonly cache name = (info.readOnly, none))
      ∧ (lookupInfo cache name = none →
          ifCommandReadonly cache name = (false, some "no command cache"))
      ∧ (cache = [] →
          ifCommandReadonly cache name = (false, some "no command cache")) := by
  intro catalog cache name
  refine ⟨?_, ?_, ?_, ?_⟩
  · intro k hk
    simp only [fetchedCmdCache, List.map_map, List.mem_map, Function.comp] at hk
    obtain ⟨p, _, hp⟩ := hk
    exact ⟨p.1, hp.symm⟩
  · intro info h
    have hne : ¬(cache.length = 0 ∨ lookupInfo cache name = none) := by
      rintro (h0 | h0)

      · cases cache with
        | nil => simp [lookupInfo] at h
        | cons a rest => simp at h0
      · rw [h] at h0
        exact Option.noConfusion h0
    unfold ifCommandReadonly
    rw [if_neg hne, h]
  · intro h
    unfold ifCommandReadonly
    rw [if_pos (Or.inr h)]
  · rintro rfl
    rfl

/-- Witness for C8 at a concrete cache: a hit returns the flag with no
error; an unknown name and the empty cache return the miss error. -/
theorem c8_command_cache_lookup_witness :
    ifCommandReadonly [("GET", ⟨true⟩)] "GET" = (true, none)
    ∧ ifCommandReadonly [("GET", ⟨true⟩)] "SET" = (false, some "no command cache")
    ∧ ifCommandReadonly [] "GET" = (false, some "no command cache") :=
  ⟨(c8_command_cache_lookup [] [("GET", ⟨true⟩)] "GET").2.1 ⟨true⟩ rfl,
   (c8_command_cache_lookup [] [("GET", ⟨true⟩)] "SET").2.2.1 rfl,
   (c8_command_cache_lookup [] [] "GET").2.2.2 rfl⟩

/-- Claim C4 (amended): Run first attempts EVALSHA with the hash form; if
and only if the returned error's message has the NOSCRIPT marker at its
start it retries once with EVAL using the full source; both attempts go
through the primary backend path. Each shadow task, however, runs the same
Run logic against its shadow backend, so a shadow also issues the EVAL
retry when its own EVALSHA answer has the NOSCRIPT marker, rather than
receiving only the hash form. -/
theorem c4_run_evalsha_then_eval :
    ∀ (primary : Backend) (shadows : List Backend) (schedulerCtx ctx : Ctx)
      (script : Script) (ks : List RValue),
      ((clientRun primary ctx script ks).2.headI
        = RValue.str redisEvalSha :: script.getHashAndArgs ks)
      ∧ (∀ e, (clientDo primary ctx (RValue.str redisEvalSha :: script.getHashAndArgs ks)).2 = some e →
          hasPrefixGo (RedisError.message e) redisErrNoScript = true →
          clientRun primary ctx script ks
            = (clientDo primary ctx (RValue.str redisEval :: script.getScriptAndArgs ks),
               [RValue.str redisEvalSha :: script.getHashAndArgs ks,
                RValue.str redisEval :: script.getScriptAndArgs ks]))
      ∧ (∀ e, (clientDo primary ctx (RValue.str redisEvalSha :: script.getHashAndArgs ks)).2 = some e →
          hasPrefixGo (RedisError.message e) redisErrNoScript = false →
          clientRun primary ctx script ks
            = (clientDo primary ctx (RValue.str redisEvalSha :: script.getHashAndArgs ks),
               [RValue.str redisEvalSha :: script.getHashAndArgs ks]))
      ∧ ((clientDo primary ctx (RValue.str redisEvalSha :: script.getHashAndArgs ks)).2 = none →
          clientRun primary ctx script ks
            = (clientDo primary ctx (RValue.str redisEvalSha :: script.getHashAndArgs ks),
               [RValue.str redisEvalSha :: script.getHashAndArgs ks]))
      ∧ (connectorRun primary shadows schedulerCtx ctx script ks
          = (clientRun primary ctx script ks,
             shadows.map (fun b => (clientRun b schedulerCtx script ks).2))) := by
  intro primary shadows schedulerCtx ctx script ks
  refine ⟨?_, ?_, ?_, ?_, rfl⟩
  · simp only [clientRun]
    cases h : (clientDo primary ctx (RValue.str redisEvalSha :: script.getHashAndArgs ks)).2 with
    | none => rfl
    | some e =>
      by_cases hp : hasPrefixGo (RedisError.message e) redisErrNoScript <;> simp [hp]
  · intro e he hp
    simp only [clientRun]
    rw [he]
    simp [hp]
  · intro e he hp
    simp only [clientRun]
    rw [he]
    simp [hp]
  · intro he
    simp only [clientRun]
    rw [he]

/-- Witness for C4 (amended) at a concrete backend that answers NOSCRIPT
to the EVALSHA attempt: Run issues exactly the EVALSHA attempt followed by
the EVAL retry. -/
theorem c4_run_evalsha_then_eval_witness :
    clientRun noScriptBackend (Ctx.caller false) sampleScript [RValue.str "x"]
      = (clientDo noScriptBackend (Ctx.caller false)
           (RValue.str redisEval :: sampleScript.getScriptAndArgs [RValue.str "x"]),
         [RValue.str redisEvalSha :: sampleScript.getHashAndArgs [RValue.str "x"],
          RValue.str redisEval :: sampleScript.getScriptAndArgs [RValue.str "x"]]) :=
  (c4_run_evalsha_then_eval noScriptBackend [] Ctx.background (Ctx.caller false)
      sampleScript [RValue.str "x"]).2.1
    (RedisError.other "NOSCRIPT No matching script. Please use EVAL.") rfl rfl

/-- Counterexample to C4 as stated: with a shadow backend that answers
NOSCRIPT to the EVALSHA attempt, the shadow task issues two attempts and
the second one is the EVAL (full source) form, so a shadow does not
receive only the single hash-form attempt. -/
theorem c4_counterexample :
    ((connectorRun okBackend [noScriptBackend] Ctx.background (Ctx.caller false)
        sampleScript [RValue.str "x"]).2.map (fun t => t.length) = [2])
    ∧ ((connectorRun okBackend [noScriptBackend] Ctx.background (Ctx.caller false)
        sampleScript [RValue.str "x"]).2.headI.getLastI
        = RValue.str redisEval :: sampleScript.getScriptAndArgs [RValue.str "x"]) :=
  ⟨rfl, rfl⟩

/-- Claim C7 (amended): Do and Run thread the caller-supplied context to
every primary attempt, so its cancellation reaches the backend call and
the backend's cancellation error is propagated; Pipeline, Publish and
Subscribe replace the caller's context with a fresh background context, so
cancelling the caller's context does not affect those primary attempts. -/
theorem c7_caller_context_threading :
    ∀ (backend : Backend) (ctx ctx' : Ctx) (cmdName : String) (args : List RValue)
      (argsList : List (List RValue)) (script : Script) (ks : List RValue)
      (channelName : String) (v : RValue),
      (clientDoCmd backend ctx cmdName args
        = getResultFromCommand (backend ctx (RValue.str cmdName :: args)))
      ∧ (clientRun backend ctx script ks
        = clientRun (fun _ a => backend ctx a) ctx' script ks)
      ∧ (clientPipeline backend ctx argsList = clientPipeline backend ctx' argsList)
      ∧ ((clientPipeline backend ctx argsList).1
        = argsList.map (fun a => getResultFromCommand (backend Ctx.background a)))
      ∧ (clientPublish backend ctx channelName v = clientPublish backend ctx' channelName v)
      ∧ (clientPublish backend ctx channelName v
        = ((backend Ctx.background [RValue.str "PUBLISH", RValue.str channelName, v]).value,
           (backend Ctx.background [RValue.str "PUBLISH", RValue.str channelName, v]).err))
      ∧ clientSubscribeCtx ctx = Ctx.background := by
  intro backend ctx ctx' cmdName args argsList script ks channelName v
  refine ⟨rfl, rfl, rfl, ?_, rfl, rfl, rfl⟩
  unfold clientPipeline
  rw [getResultFromCommands_eq]
  simp [List.map_map, Function.comp]

/-- Counterexample to C7 as stated: with a backend that reports a
cancellation error exactly under the cancelled caller context, a Pipeline
and a Publish invoked with that cancelled context still succeed — the
caller's cancellation neither cancels the primary attempt nor propagates. -/
theorem c7_counterexample :
    ((clientPipeline ctxSensitiveBackend (Ctx.caller true)
        [[RValue.str "GET", RValue.str "k"]]).2 = none)
    ∧ ((clientPipeline ctxSensitiveBackend (Ctx.caller true)
        [[RValue.str "GET", RValue.str "k"]]).1 = [(RValue.str "OK", none)])
    ∧ ((ctxSensitiveBackend (Ctx.caller true) [RValue.str "GET", RValue.str "k"]).err
        = some (RedisError.other "context canceled"))
    ∧ ((clientPublish ctxSensitiveBackend (Ctx.caller true) "ch" (RValue.str "v")).2 = none) :=
  ⟨rfl, rfl, rfl, rfl⟩

/-- Claim C6: on every 100 ms tick of the shadow scheduler's monitor with
sampled queue depth b, the monitor computes
need = max(1, ceiling(b times the ring's average latency in seconds)) and
spawns up to need new workers, never growing the live worker count beyond
maxWorkers; when b is zero no worker is spawned. -/
theorem c6_monitor_worker_sizing :
    ∀ s : SchedState,
      (s.backlog = 0 → monitorTick s = s)
      ∧ (s.backlog ≠ 0 →
          (monitorTick s).numWorker
            = s.numWorker
              + max 0 (min (max 1 (Int.ceil ((s.backlog : ℚ) * (s.latencies.average / 1000000000))))
                           (s.maxWorker - s.numWorker))
          ∧ (monitorTick s).numWorker - s.numWorker
              ≤ max 1 (Int.ceil ((s.backlog : ℚ) * (s.latencies.average / 1000000000)))
          ∧ (s.numWorker ≤ s.maxWorker → (monitorTick s).numWorker ≤ s.maxWorker)) := by
  intro s
  constructor
  · intro h
    unfold monitorTick
    rw [if_pos h]
  · intro h
    have hneed :
        (if 0 < s.latencies.average then
          Int.ceil ((s.backlog : ℚ) * (s.latencies.average / 1000000000)) else 1)
          = max 1 (Int.ceil ((s.backlog : ℚ) * (s.latencies.average / 1000000000))) := by
      by_cases ha : 0 < s.latencies.average
      · rw [if_pos ha]
        have hb : (0 : ℚ) < (s.backlog : ℚ) := by
          have : 0 < s.backlog := Nat.pos_of_ne_zero h
          exact_mod_cast this
        have hpos : 0 < (s.backlog : ℚ) * (s.latencies.average / 1000000000) :=
          mul_pos hb (div_pos ha (by norm_num))
        have : 0 < Int.ceil ((s.backlog : ℚ) * (s.latencies.average / 1000000000)) :=
          Int.ceil_pos.mpr hpos
        omega
      · rw [if_neg ha]
        have hnp : (s.backlog : ℚ) * (s.latencies.average / 1000000000) ≤ 0 := by
          have hb : (0 : ℚ) ≤ (s.backlog : ℚ) := by positivity
          have hd : s.latencies.average / 1000000000 ≤ 0 :=
            div_nonpos_iff.mpr (Or.inr ⟨le_of_not_lt ha, by norm_num⟩)
          exact mul_nonpos_iff.mpr (Or.inl ⟨hb, hd⟩)
        have : Int.ceil ((s.backlog : ℚ) * (s.latencies.average / 1000000000)) ≤ 0 :=
          Int.ceil_le.mpr (by exact_mod_cast hnp)
        omega
    have hm : (monitorTick s).numWorker
        = spawnLoop s.maxWorker
            (if 0 < s.latencies.average then
              Int.ceil ((s.backlog : ℚ) * (s.latencies.average / 1000000000)) else 1)
            0 s.numWorker := by
      unfold monitorTick
      rw [if_neg h]
    rw [hm, spawnLoop_eq, hneed]
    refine ⟨by omega, by omega, fun hle => by omega⟩

/-- Witness for C6 at a concrete scheduler state (backlog 3, ring average
2 s, one live worker of at most ten): the tick grows the worker count by
the clamped need, never beyond the bound; a zero-backlog state is left
untouched. -/
theorem c6_monitor_worker_sizing_witness :
    schedStateEx.backlog ≠ 0
    ∧ (monitorTick schedStateEx).numWorker
        = schedStateEx.numWorker
          + max 0 (min (max 1 (Int.ceil ((schedStateEx.backlog : ℚ) * (schedStateEx.latencies.average / 1000000000))))
                       (schedStateEx.maxWorker - schedStateEx.numWorker))
    ∧ (monitorTick schedStateEx).numWorker ≤ schedStateEx.maxWorker
    ∧ monitorTick { schedStateEx with backlog := 0 } = { schedStateEx with backlog := 0 } :=
  ⟨by decide,
   ((c6_monitor_worker_sizing schedStateEx).2 (by decide)).1,
   ((c6_monitor_worker_sizing schedStateEx).2 (by decide)).2.2 (by decide),
   (c6_monitor_worker_sizing { schedStateEx with backlog := 0 }).1 rfl⟩

/-- Claim C3 (amended): during a reload, a shadow backend of the new
configuration whose address set equals the primary's is rejected with the
error "can't share the same address with the main client" on the matched
path — when a current shadow with the same canonical name exists to pop;
a shadow with no matching current instance is constructed anew with no
address check, even when its address set equals the primary's. -/
theorem c3_shared_address_rejection :
    ∀ (primaryAddrs : List String) (heap : List ClientConfig)
      (m : List (String × List Nat)) (cfg : ClientConfig),
      (mapLookup m cfg.name ≠ [] → isAddrsEquals primaryAddrs cfg.addrs = true →
        processLoadTest primaryAddrs heap m cfg
          = Except.error "can't share the same address with the main client")
      ∧ (mapLookup m cfg.name = [] →
        processLoadTest primaryAddrs heap m cfg
          = Except.ok (newClientConfig cfg, heap, m)) := by
  intro primaryAddrs heap m cfg
  constructor
  · intro hne haddr
    unfold processLoadTest
    cases hm : mapLookup m cfg.name with
    | nil => exact absurd hm hne
    | cons c0 cs => simp [haddr]
  · intro hm
    unfold processLoadTest
    rw [hm]

/-- Witness for C3 (amended): a matched shadow sharing the primary's sole
address is rejected with the shared-address error; an unmatched shadow
with the very same address set is accepted as a new client. -/
theorem c3_shared_address_rejection_witness :
    processLoadTest ["127.0.0.1:6379"] [basePrimaryCfg]
        [("127.0.0.1:6379", [0])] basePrimaryCfg
      = Except.error "can't share the same address with the main client"
    ∧ processLoadTest ["127.0.0.1:6379"] [] [] basePrimaryCfg
      = Except.ok (newClientConfig basePrimaryCfg, [], []) :=
  ⟨(c3_shared_address_rejection ["127.0.0.1:6379"] [basePrimaryCfg]
      [("127.0.0.1:6379", [0])] basePrimaryCfg).1 (by decide) (by decide),
   (c3_shared_address_rejection ["127.0.0.1:6379"] [] [] basePrimaryCfg).2 rfl⟩

/-- Counterexample to C3 as stated: a reload that adds a brand-new shadow
(no current shadow matches it) whose address set equals the primary's is
not rejected — the reload succeeds with no error. -/
theorem c3_counterexample :
    (connectorReload c3StateEx c3ConfigEx).2 = none
    ∧ c3ConfigEx.loadTests.length = 1
    ∧ isAddrsEquals c3StateEx.clientCfg.addrs c3ConfigEx.loadTests.headI.addrs = true :=
  ⟨rfl, rfl, rfl⟩

/-- Claim C2 (amended): whenever `reload` returns an error, the scheduler
parameters are unchanged and the number and identities of the shadow
clients are retained; when the failure is the scheduler-parameter
rejection, only the strict-shadow flag has changed, and when the primary
reload itself fails, the primary configuration and every shadow
configuration are unchanged as well. However, the strict-shadow
(process-all-load-test-packets) flag is always overwritten with the new
configuration's value before any validation, and when the failure occurs
in the shadow phase the primary retains the already-applied new
parameters (and shadows reloaded earlier in the loop retain theirs). -/
theorem c2_failed_reload_retention :
    ∀ (c : ConnectorState) (config : ConnectorConfig) (st : ConnectorState) (e : String),
      connectorReload c config = (st, some e) →
        st.schedMaxWorker = c.schedMaxWorker
        ∧ st.schedMaxChanSize = c.schedMaxChanSize
        ∧ st.schedWorkerIdleTimeoutNs = c.schedWorkerIdleTimeoutNs
        ∧ st.processAllLoadTestPackets = config.processAllLoadTestPackets
        ∧ st.loadTestClients.length = c.loadTestClients.length
        ∧ (∀ e', clientReload c.clientCfg config.main = Except.error e' →
            st.clientCfg = c.clientCfg ∧ st.loadTestClients = c.loadTestClients)
        ∧ ((c.schedMaxWorker ≠ config.schedulerWorkerNumber
              ∨ c.schedMaxChanSize ≠ config.schedulerChannelSize
              ∨ c.schedWorkerIdleTimeoutNs
                  ≠ parseDurationInMs config.schedulerWorkerIdleTimeoutInMs) →
            st = { c with processAllLoadTestPackets := config.processAllLoadTestPackets }) := by
  intro c config st e h
  cases hhr : config.hotReload with
  | false =>
    simp only [connectorReload, hhr] at h
    simp at h
  | true =>
    simp only [connectorReload, hhr, not_true, if_false] at h
    split at h
    next hsched =>
      have h1 := congrArg Prod.fst h
      simp only [] at h1
      subst h1
      exact ⟨rfl, rfl, rfl, rfl, rfl, fun e' _ => ⟨rfl, rfl⟩, fun _ => rfl⟩
    next hsched =>
      rw [not_or, not_or] at hsched
      split at h
      next e' heq =>
        have h1 := congrArg Prod.fst h
        simp only [] at h1
        subst h1
        refine ⟨rfl, rfl, rfl, rfl, rfl, fun _ _ => ⟨rfl, rfl⟩, fun hd => ?_⟩
        rcases hd with hd | hd | hd
        · exact absurd hd hsched.1
        · exact absurd hd hsched.2.1
        · exact absurd hd hsched.2.2
      next newPrimary heq =>
        split at h
        next heap e2 heq2 =>
          have h1 := congrArg Prod.fst h
          simp only [] at h1
          subst h1
          have hlen : heap.length = c.loadTestClients.length := by
            have hl := reloadLoadTests_heap_length newPrimary.addrs config.loadTests
              c.loadTestClients (buildLoadTestMap c.loadTestClients 0) []
            rw [heq2] at hl
            exact hl
          refine ⟨rfl, rfl, rfl, rfl, hlen, fun e'' he'' => ?_, fun hd => ?_⟩
          · rw [heq] at he''
            exact Except.noConfusion he''
          · rcases hd with hd | hd | hd
            · exact absurd hd hsched.1
            · exact absurd hd hsched.2.1
            · exact absurd hd hsched.2.2
        next heap newClients heq2 =>
          simp at h

/-- Witness for C2 (amended) at the concrete failing reload of the C2
scenario (the shadow asks for a forbidden DB change): the scheduler
parameters and the shadow count are retained and the strict-shadow flag
carries the new configuration's value. -/
theorem c2_failed_reload_retention_witness :
    (connectorReload c2StateEx c2ConfigEx).1.schedMaxWorker = c2StateEx.schedMaxWorker
    ∧ (connectorReload c2StateEx c2ConfigEx).1.schedMaxChanSize = c2StateEx.schedMaxChanSize
    ∧ (connectorReload c2StateEx c2ConfigEx).1.schedWorkerIdleTimeoutNs
        = c2StateEx.schedWorkerIdleTimeoutNs
    ∧ (connectorReload c2StateEx c2ConfigEx).1.processAllLoadTestPackets
        = c2ConfigEx.processAllLoadTestPackets
    ∧ (connectorReload c2StateEx c2ConfigEx).1.loadTestClients.length
        = c2StateEx.loadTestClients.length :=
  (fun hfull => ⟨hfull.1, hfull.2.1, hfull.2.2.1, hfull.2.2.2.1, hfull.2.2.2.2.1⟩)
    (c2_failed_reload_retention c2StateEx c2ConfigEx
      (connectorReload c2StateEx c2ConfigEx).1
      "DB change is not allowed in reloading" rfl)

/-- Counterexample to C2 as stated: a reload that fails in the shadow
phase (forbidden DB change on the matched shadow) returns an error, yet
the strict-shadow flag has been flipped to the new value and the primary
already carries the new pool size — the previous configuration is not
retained in full. -/
theorem c2_counterexample :
    ((connectorReload c2StateEx c2ConfigEx).2).isSome = true
    ∧ (connectorReload c2StateEx c2ConfigEx).1.processAllLoadTestPackets = true
    ∧ c2StateEx.processAllLoadTestPackets = false
    ∧ (connectorReload c2StateEx c2ConfigEx).1.clientCfg.poolSize = 2
    ∧ c2StateEx.clientCfg.poolSize = 1 :=
  ⟨rfl, rfl, rfl, rfl, rfl⟩

end GrabRedis
